import Mathlib

/-!
Verification of the authentication/authorization logic of `assignment2.js`
(an Express + MongoDB web application).

The embedding models the request handlers of the primary source variant:
- `POST /signupSubmit` (lines 62-100)
- `POST /loginSubmit`  (lines 106-141)
- `GET /members`       (lines 143-155)
- `GET /admin`         (lines 168-188)
- `POST /admin/promote` (lines 191-206)
- `POST /admin/demote`  (lines 209-238)

The MongoDB `users` collection is a list of user records; the
express-session store is an association list from the opaque cookie token
to the stored session snapshot (`req.session.user`).  `bcrypt.hash` and
`bcrypt.compare` are external library calls and enter the model as
function parameters.  Joi's `string().email()` validator is external as
well and is modelled by a simple well-formedness check (exactly one `@`,
non-empty local part, a dot in the non-empty domain part), which matches
its shape on every input used here.
-/

/-- A user record in the `users` collection.  The source stores the bcrypt
hash in the `password` field and the role in the `type` field
(`"user"` or `"admin"`); `id` stands for the Mongo `_id`. -/
structure User where
  id : String
  name : String
  email : String
  password : String
  type : String
deriving DecidableEq, Repr

/-- The snapshot the handlers place in `req.session.user`.  Signup stores
`{name, email, type}` (no id); login also stores `id := some user._id`. -/
structure SessionUser where
  id : Option String
  name : String
  email : String
  type : String
deriving DecidableEq, Repr

/-- The persistent state the handlers touch: the `users` collection and the
session store (token ↦ stored `req.session.user` snapshot). -/
structure AppState where
  users : List User
  sessions : List (String × SessionUser)
deriving DecidableEq, Repr

/-- The HTTP responses the modelled handlers can produce. -/
inductive Response where
  | send (body : String)
  | redirect (path : String)
  | statusSend (code : Nat) (body : String)
  | statusRender (code : Nat) (page : String)
  | render (page : String)
  | sendStatus (code : Nat)
deriving DecidableEq, Repr

/-- Read `req.session.user` for the request's cookie token. -/
def getSession (ss : List (String × SessionUser)) (tok : String) : Option SessionUser :=
  (ss.find? (fun p => p.1 == tok)).map (fun p => p.2)

/-- Write `req.session.user = u` for the request's cookie token
(the session middleware upserts the record keyed by the token). -/
def setSession (ss : List (String × SessionUser)) (tok : String) (u : SessionUser) :
    List (String × SessionUser) :=
  match ss with
  | [] => [(tok, u)]
  | p :: rest => if p.1 == tok then (tok, u) :: rest else p :: setSession rest tok u

/-- JavaScript `String.prototype.toLowerCase`, restricted to the ASCII
range handled by `Char.toLower` (emails in scope are ASCII). -/
def jsToLower (s : String) : String :=
  String.mk (s.data.map Char.toLower)

/-- Model of Joi's `string().email()` validator: exactly one `@`,
non-empty local part, and a non-empty domain containing a dot. -/
def isEmail (s : String) : Bool :=
  let cs := s.data
  let localPart := cs.takeWhile (fun c => c != '@')
  let domainPart := (cs.dropWhile (fun c => c != '@')).drop 1
  (cs.count '@' == 1) && !localPart.isEmpty && !domainPart.isEmpty && domainPart.contains '.'

/-- Joi signup schema: `name` a non-empty string of at most 30 characters,
`email` well-formed, `password` at least 6 characters (all `.required()`;
Joi strings reject the empty string by default). -/
def signupValid (b : String × String × String) : Bool :=
  let (name, email, password) := b
  (name != "") && decide (name.length ≤ 30) && isEmail email && decide (6 ≤ password.length)

/-- Joi login schema: `email` well-formed, `password` a required
(hence non-empty) string. -/
def loginValid (email password : String) : Bool :=
  isEmail email && (password != "")

/-- Placeholder for Joi's interpolated `error.message` page. -/
def validationErrMsg : String := "<p>validation error</p><a>Try again</a>"

/-- Source line 79. -/
def alreadyRegisteredMsg : String :=
  "<p>Email already registered.</p><a href=\"/signup\">Try again</a>"

/-- Source lines 120 and 125: the one generic message for both a missing
account and a wrong password. -/
def invalidCredsMsg : String :=
  "<p>Invalid email/password combination</p><a href=\"/login\">Try again</a>"

/-- Source lines 224-227 (whitespace normalised). -/
def selfDemoteMsg : String :=
  "<p>You cannot demote yourself.</p><a href=\"/admin\">Go back</a>"

/-- `POST /signupSubmit` (lines 62-100).  `hash` models `bcrypt.hash`
(salted, so it enters as a parameter); `fid` models the `_id` MongoDB
generates for `insertOne`; `tok` is the request's session token. -/
def signupSubmit (hash : String → String) (fid : String) (st : AppState) (tok : String)
    (name email password : String) : Response × AppState :=
  if !signupValid (name, email, password) then
    (Response.send validationErrMsg, st)
  else
    let normalizedEmail := jsToLower email
    match st.users.find? (fun u => u.email == normalizedEmail) with
    | some _ => (Response.send alreadyRegisteredMsg, st)
    | none =>
      let hashcode := hash password
      let nu : User := { id := fid, name := name, email := normalizedEmail,
                         password := hashcode, type := "user" }
      let snap : SessionUser := { id := none, name := name, email := normalizedEmail,
                                  type := "user" }
      (Response.redirect "/members",
        { users := st.users ++ [nu], sessions := setSession st.sessions tok snap })

/-- `POST /loginSubmit` (lines 106-141).  `compare` models
`bcrypt.compare`.  Note the lookup key is `value.email` verbatim
(line 118): the submitted email is NOT lowercased here, although signup
stores the lowercased form. -/
def loginSubmit (compare : String → String → Bool) (st : AppState) (tok : String)
    (email password : String) : Response × AppState :=
  if !loginValid email password then
    (Response.send validationErrMsg, st)
  else
    match st.users.find? (fun u => u.email == email) with
    | none => (Response.send invalidCredsMsg, st)
    | some user =>
      if !compare password user.password then
        (Response.send invalidCredsMsg, st)
      else
        let snap : SessionUser := { id := some user.id, name := user.name, email := user.email,
                                    type := if user.type == "" then "user" else user.type }
        (Response.redirect "/members", { st with sessions := setSession st.sessions tok snap })

/-- `GET /members` (lines 143-155): the handler only reads
`req.session.user`. -/
def membersGet (sess : Option SessionUser) : Response :=
  match sess with
  | none => Response.redirect "/"
  | some _ => Response.render "members"

/-- `GET /admin` (lines 168-188), success path of the user listing
(the gate, which is all the claims concern, happens before the read). -/
def adminGet (sess : Option SessionUser) : Response :=
  match sess with
  | none => Response.redirect "/login"
  | some u => if u.type ≠ "admin" then Response.statusRender 403 "403" else Response.render "admin"

/-- `new ObjectId(s)` accepts a 24-character hex string (the canonical
string form); anything else throws, which the handlers catch as a 500. -/
def isValidObjectId (s : String) : Bool :=
  (s.length == 24) && s.data.all (fun c => c.isDigit || ('a' ≤ c && c ≤ 'f') || ('A' ≤ c && c ≤ 'F'))

/-- Mongo `updateOne({_id: tid}, {$set: {type: role}})`: update the first
record whose `_id` matches (ids are unique, so at most one matches). -/
def setTypeFirst (tid role : String) : List User → List User
  | [] => []
  | u :: us => if u.id == tid then { u with type := role } :: us else u :: setTypeFirst tid role us

/-- `POST /admin/promote` (lines 191-206): admin gate, then an
unconditional `updateOne` setting `type: 'admin'` — no existence check —
then redirect to `/admin`.  A malformed ObjectId throws and is caught as
a 500 error render. -/
def promote (st : AppState) (tok uid : String) : Response × AppState :=
  match getSession st.sessions tok with
  | none => (Response.sendStatus 403, st)
  | some s =>
    if s.type ≠ "admin" then (Response.sendStatus 403, st)
    else if !isValidObjectId uid then (Response.statusRender 500 "error", st)
    else (Response.redirect "/admin", { st with users := setTypeFirst uid "admin" st.users })

/-- `POST /admin/demote` (lines 209-238): admin gate, `findOne` on the
target id, 404 when absent, a self-demotion guard comparing the target's
email with the caller's session email, then `updateOne` setting
`type: 'user'` and a redirect.  In the source the 404 branch (line 220)
lacks a `return`; the fall-through then dereferences `null` and throws,
which the `catch` logs before attempting a 500 that can no longer be
delivered (headers already sent) — so the client-visible response is the
404 and no write happens, which is what the model returns. -/
def demote (st : AppState) (tok uid : String) : Response × AppState :=
  match getSession st.sessions tok with
  | none => (Response.sendStatus 403, st)
  | some s =>
    if s.type ≠ "admin" then (Response.sendStatus 403, st)
    else if !isValidObjectId uid then (Response.statusRender 500 "error", st)
    else
      match st.users.find? (fun u => u.id == uid) with
      | none => (Response.statusRender 404 "404", st)
      | some targetUser =>
        if targetUser.email == s.email then (Response.send selfDemoteMsg, st)
        else (Response.redirect "/admin", { st with users := setTypeFirst uid "user" st.users })

/-! ### Concrete fixtures used by the witness theorems -/

/-- A stand-in for `bcrypt.hash` in concrete runs: prefixes `"H"`. -/
def hashH : String → String := fun p => String.append "H" p

/-- The matching stand-in for `bcrypt.compare`. -/
def compareH : String → String → Bool := fun p h => h == String.append "H" p

/-- A pre-existing administrator record. -/
def adminUser : User :=
  { id := "aaaaaaaaaaaaaaaaaaaaaaaa", name := "Boss", email := "boss@x.com",
    password := "Hroot99", type := "admin" }

/-- The administrator's session snapshot, as login would store it. -/
def adminSnap : SessionUser :=
  { id := some "aaaaaaaaaaaaaaaaaaaaaaaa", name := "Boss", email := "boss@x.com",
    type := "admin" }

/-- A state holding the administrator and their live session at `"tokB"`. -/
def baseState : AppState := { users := [adminUser], sessions := [("tokB", adminSnap)] }

/-! ### Helper lemmas -/

/-- Reading back the session slot just written. -/
theorem getSession_setSession (ss : List (String × SessionUser)) (tok : String) (u : SessionUser) :
    getSession (setSession ss tok u) tok = some u := by
  induction ss with
  | nil => simp [setSession, getSession]
  | cons p rest ih =>
    by_cases h : p.1 = tok
    · simp [setSession, getSession, h]
    · simpa [setSession, getSession, h] using ih

/-- Explicit form of a successful signup. -/
theorem signupSubmit_success (hash : String → String) (fid : String) (st : AppState)
    (tok name email password : String)
    (hv : signupValid (name, email, password) = true)
    (hfresh : st.users.find? (fun u => u.email == jsToLower email) = none) :
    signupSubmit hash fid st tok name email password =
      (Response.redirect "/members",
       { users := st.users ++ [{ id := fid, name := name, email := jsToLower email,
                                 password := hash password, type := "user" }],
         sessions := setSession st.sessions tok
           { id := none, name := name, email := jsToLower email, type := "user" } }) := by
  simp [signupSubmit, hv, hfresh]

/-- A forall-freshness hypothesis gives the `findOne` miss the code tests. -/
theorem find?_email_none (us : List User) (e : String)
    (h : ∀ u ∈ us, u.email ≠ e) : us.find? (fun u => u.email == e) = none := by
  simp only [List.find?_eq_none]
  intro u hu
  simpa using h u hu

/-- `updateOne` on an id absent from the collection changes nothing. -/
theorem setTypeFirst_not_found (tid r : String) (us : List User)
    (h : ∀ u ∈ us, u.id ≠ tid) : setTypeFirst tid r us = us := by
  induction us with
  | nil => rfl
  | cons u rest ih =>
    have hu : (u.id == tid) = false := by simpa using h u (by simp)
    simp only [setTypeFirst, hu, Bool.false_eq_true, if_false, List.cons.injEq, true_and]
    exact ih fun v hv => h v (by simp [hv])

/-- `updateOne` on a freshly appended record rewrites exactly that record. -/
theorem setTypeFirst_append_fresh (tid r : String) (us : List User) (x : User)
    (h : ∀ u ∈ us, u.id ≠ tid) (hx : x.id = tid) :
    setTypeFirst tid r (us ++ [x]) = us ++ [{ x with type := r }] := by
  induction us with
  | nil => simp [setTypeFirst, hx]
  | cons u rest ih =>
    have hu : (u.id == tid) = false := by simpa using h u (by simp)
    simp only [List.cons_append, setTypeFirst, hu, Bool.false_eq_true, if_false, List.cons.injEq,
      true_and]
    exact ih fun v hv => h v (by simp [hv])

/-- `findOne` by id on a collection whose only match is the appended record. -/
theorem find?_append_last (tid : String) (us : List User) (x : User)
    (h : ∀ u ∈ us, u.id ≠ tid) (hx : x.id = tid) :
    (us ++ [x]).find? (fun u => u.id == tid) = some x := by
  induction us with
  | nil => simp [hx]
  | cons u rest ih =>
    have hu : (u.id == tid) = false := by simpa using h u (by simp)
    simp only [List.cons_append, List.find?, hu]
    exact ih fun v hv => h v (by simp [hv])

/-- Explicit form of `promote` when the caller holds an admin session and
the target id is well-formed. -/
theorem promote_admin_eq (st : AppState) (tok uid : String) (a : SessionUser)
    (ha : getSession st.sessions tok = some a) (hadmin : a.type = "admin")
    (hu : isValidObjectId uid = true) :
    promote st tok uid =
      (Response.redirect "/admin", { st with users := setTypeFirst uid "admin" st.users }) := by
  unfold promote
  rw [ha]
  simp [hadmin, hu]

/-- Explicit form of `demote` when the gate passes and the target exists
and is not the caller. -/
theorem demote_found_other_eq (st : AppState) (tok uid : String) (a : SessionUser) (t : User)
    (ha : getSession st.sessions tok = some a) (hadmin : a.type = "admin")
    (hu : isValidObjectId uid = true)
    (ht : st.users.find? (fun u => u.id == uid) = some t)
    (hne : t.email ≠ a.email) :
    demote st tok uid =
      (Response.redirect "/admin", { st with users := setTypeFirst uid "user" st.users }) := by
  unfold demote
  rw [ha]
  simp [hadmin, hu, ht, hne]

/-! ### Claim theorems -/

/-- C1: for every valid signup input (non-empty name of at most 30
characters, well-formed email, password of at least 6 characters) whose
lowercase-normalized email matches no existing user record, signup
appends exactly one new user record whose email is the lowercase form of
the submitted email, whose role (`type`) is `"user"` and whose stored
password is the hash and differs from the plaintext; it stores a session
snapshot for that user under the request's token and redirects to
`/members`. -/
theorem signup_fresh_creates_exactly_one (hash : String → String) (fid : String) (st : AppState)
    (tok name email password : String)
    (hv : signupValid (name, email, password) = true)
    (hfresh : ∀ u ∈ st.users, u.email ≠ jsToLower email)
    (hhash : hash password ≠ password) :
    ∃ nu : User,
      (signupSubmit hash fid st tok name email password).2.users = st.users ++ [nu] ∧
      nu.email = jsToLower email ∧
      nu.type = "user" ∧
      nu.password = hash password ∧
      nu.password ≠ password ∧
      getSession (signupSubmit hash fid st tok name email password).2.sessions tok =
        some { id := none, name := nu.name, email := nu.email, type := nu.type } ∧
      (signupSubmit hash fid st tok name email password).1 = Response.redirect "/members" := by
  have hf := find?_email_none st.users (jsToLower email) hfresh
  have h1 := signupSubmit_success hash fid st tok name email password hv hf
  refine ⟨{ id := fid, name := name, email := jsToLower email,
            password := hash password, type := "user" }, ?_, rfl, rfl, rfl, hhash, ?_, ?_⟩
  · rw [h1]
  · rw [h1]
    exact getSession_setSession st.sessions tok _
  · rw [h1]

/-- Witness for C1 at the spec's own example: signup of
`{name: Ada, email: Ada@x.com, password: secret1}` on an empty store. -/
theorem signup_fresh_creates_exactly_one_witness :
    ∃ nu : User,
      (signupSubmit hashH "507f1f77bcf86cd799439011" ⟨[], []⟩ "tokA"
        "Ada" "Ada@x.com" "secret1").2.users = [] ++ [nu] ∧
      nu.email = jsToLower "Ada@x.com" ∧
      nu.type = "user" ∧
      nu.password = hashH "secret1" ∧
      nu.password ≠ "secret1" ∧
      getSession (signupSubmit hashH "507f1f77bcf86cd799439011" ⟨[], []⟩ "tokA"
        "Ada" "Ada@x.com" "secret1").2.sessions "tokA" =
        some { id := none, name := nu.name, email := nu.email, type := nu.type } ∧
      (signupSubmit hashH "507f1f77bcf86cd799439011" ⟨[], []⟩ "tokA"
        "Ada" "Ada@x.com" "secret1").1 = Response.redirect "/members" :=
  signup_fresh_creates_exactly_one hashH "507f1f77bcf86cd799439011" ⟨[], []⟩ "tokA"
    "Ada" "Ada@x.com" "secret1" (by decide) (by decide) (by decide)

/-- The store produced by signing up Ada with the mixed-case email
`"Ada@x.com"` on an empty state: the record is stored with the
lowercased email `"ada@x.com"`. -/
def stAfterAdaSignup : AppState :=
  (signupSubmit hashH "507f1f77bcf86cd799439011" ⟨[], []⟩ "tokA" "Ada" "Ada@x.com" "secret1").2

/-- C2: the claim says login looks up the user by the lowercase-normalized
submitted email, so a case variant of a registered email logs in.  The
code (line 118) queries `value.email` verbatim: after Ada signs up with
`"Ada@x.com"` (stored as `"ada@x.com"`), logging in with the very same
`"Ada@x.com"` and the correct password yields the generic
invalid-credentials page and no session, while the all-lowercase form
succeeds. -/
theorem login_case_variant_not_found :
    (loginSubmit compareH stAfterAdaSignup "tokB" "Ada@x.com" "secret1").1 =
        Response.send invalidCredsMsg ∧
    (loginSubmit compareH stAfterAdaSignup "tokB" "Ada@x.com" "secret1").2 = stAfterAdaSignup ∧
    getSession (loginSubmit compareH stAfterAdaSignup "tokB" "Ada@x.com" "secret1").2.sessions
        "tokB" = none ∧
    (loginSubmit compareH stAfterAdaSignup "tokB" "ada@x.com" "secret1").1 =
        Response.redirect "/members" := by
  decide

/-- C3: on a valid login form, a missing account and a wrong password
produce the very same result: the one generic invalid-credentials page
and a completely unchanged state (in particular no session). -/
theorem login_failure_indistinguishable (compare : String → String → Bool) (st : AppState)
    (tok email password : String)
    (hv : loginValid email password = true) :
    (st.users.find? (fun u => u.email == email) = none →
      loginSubmit compare st tok email password = (Response.send invalidCredsMsg, st)) ∧
    (∀ u : User, st.users.find? (fun v => v.email == email) = some u →
      compare password u.password = false →
      loginSubmit compare st tok email password = (Response.send invalidCredsMsg, st)) := by
  constructor
  · intro h
    simp [loginSubmit, hv, h]
  · intro u hu hc
    simp [loginSubmit, hv, hu, hc]

/-- Witness for C3: wrong password for the registered `boss@x.com` and a
lookup of the unregistered `ghost@x.com` both return the generic page and
leave the state alone. -/
theorem login_failure_indistinguishable_witness :
    loginValid "boss@x.com" "wrong99" = true ∧
    loginSubmit compareH baseState "tokC" "boss@x.com" "wrong99" =
      (Response.send invalidCredsMsg, baseState) ∧
    loginSubmit compareH baseState "tokC" "ghost@x.com" "wrong99" =
      (Response.send invalidCredsMsg, baseState) :=
  ⟨by decide,
   (login_failure_indistinguishable compareH baseState "tokC" "boss@x.com" "wrong99"
      (by decide)).2 adminUser (by decide) (by decide),
   (login_failure_indistinguishable compareH baseState "tokC" "ghost@x.com" "wrong99"
      (by decide)).1 (by decide)⟩

/-- C4: a valid signup whose normalized email already belongs to a stored
user answers the "already registered" page and returns the state intact:
no second record, no session. -/
theorem signup_duplicate_rejected (hash : String → String) (fid : String) (st : AppState)
    (tok name email password : String)
    (hv : signupValid (name, email, password) = true)
    (hex : ∃ u ∈ st.users, u.email = jsToLower email) :
    signupSubmit hash fid st tok name email password =
      (Response.send alreadyRegisteredMsg, st) := by
  obtain ⟨u, hu, he⟩ := hex
  have hsome : (st.users.find? (fun v => v.email == jsToLower email)).isSome := by
    rw [List.find?_isSome]
    exact ⟨u, hu, by simp [he]⟩
  obtain ⟨v, hv'⟩ := Option.isSome_iff_exists.mp hsome
  simp [signupSubmit, hv, hv']

/-- Witness for C4: signing up `Eve` with `Boss@x.com` while
`boss@x.com` is taken. -/
theorem signup_duplicate_rejected_witness :
    signupValid ("Eve", "Boss@x.com", "secret2") = true ∧
    (∃ u ∈ baseState.users, u.email = jsToLower "Boss@x.com") ∧
    signupSubmit hashH "507f1f77bcf86cd799439012" baseState "tokD" "Eve" "Boss@x.com" "secret2" =
      (Response.send alreadyRegisteredMsg, baseState) :=
  ⟨by decide, by decide,
   signup_duplicate_rejected hashH "507f1f77bcf86cd799439012" baseState "tokD"
     "Eve" "Boss@x.com" "secret2" (by decide) (by decide)⟩

/-- C5: without a session, `GET /members` redirects to `/` and
`GET /admin` redirects to `/login`; with a session whose role is not
admin, `GET /admin` answers the distinct 403 page, not a redirect. -/
theorem route_guards (s : SessionUser) (h : s.type ≠ "admin") :
    membersGet none = Response.redirect "/" ∧
    adminGet none = Response.redirect "/login" ∧
    adminGet (some s) = Response.statusRender 403 "403" ∧
    ∀ p : String, adminGet (some s) ≠ Response.redirect p := by
  refine ⟨rfl, rfl, by simp [adminGet, h], ?_⟩
  intro p
  simp [adminGet, h]

/-- Witness for C5 with a logged-in non-admin snapshot. -/
theorem route_guards_witness :
    membersGet none = Response.redirect "/" ∧
    adminGet none = Response.redirect "/login" ∧
    adminGet (some ⟨none, "Ada", "ada@x.com", "user"⟩) = Response.statusRender 403 "403" ∧
    ∀ p : String, adminGet (some ⟨none, "Ada", "ada@x.com", "user"⟩) ≠ Response.redirect p :=
  route_guards ⟨none, "Ada", "ada@x.com", "user"⟩ (by decide)

/-- Core of the promote/demote round trip: in a store whose last record is
the only one carrying the target id, an admin caller's promote sets that
record's role to admin, a subsequent demote (caller's email differing from
the target's) returns it to `"user"`, and a second promote changes the
state not at all. -/
theorem promote_demote_on_fresh (us : List User) (ss : List (String × SessionUser))
    (tok2 fid : String) (a : SessionUser) (nu : User)
    (ha : getSession ss tok2 = some a) (hadmin : a.type = "admin")
    (hfid : isValidObjectId fid = true)
    (hfresh : ∀ u ∈ us, u.id ≠ fid) (hid : nu.id = fid)
    (hne : nu.email ≠ a.email) :
    ((demote (promote ⟨us ++ [nu], ss⟩ tok2 fid).2 tok2 fid).2.users.find?
        (fun u => u.id == fid)).map User.type = some "user" ∧
    (promote (promote ⟨us ++ [nu], ss⟩ tok2 fid).2 tok2 fid).2 =
      (promote ⟨us ++ [nu], ss⟩ tok2 fid).2 := by
  have hp := promote_admin_eq ⟨us ++ [nu], ss⟩ tok2 fid a ha hadmin hfid
  have hset1 := setTypeFirst_append_fresh fid "admin" us nu hfresh hid
  have e2 : (promote (⟨us ++ [nu], ss⟩ : AppState) tok2 fid).2 =
      ⟨us ++ [{ nu with type := "admin" }], ss⟩ := by
    rw [hp]
    dsimp only
    rw [hset1]
  rw [e2]
  have hfind : (us ++ [{ nu with type := "admin" }]).find? (fun u => u.id == fid) =
      some { nu with type := "admin" } :=
    find?_append_last fid us _ hfresh hid
  constructor
  · have hd := demote_found_other_eq ⟨us ++ [{ nu with type := "admin" }], ss⟩ tok2 fid a
      { nu with type := "admin" } ha hadmin hfid hfind hne
    rw [hd]
    dsimp only
    rw [setTypeFirst_append_fresh fid "user" us { nu with type := "admin" } hfresh hid]
    rw [find?_append_last fid us { nu with type := "user" } hfresh hid]
    rfl
  · have hp2 := promote_admin_eq ⟨us ++ [{ nu with type := "admin" }], ss⟩ tok2 fid a
      ha hadmin hfid
    rw [hp2]
    dsimp only
    rw [setTypeFirst_append_fresh fid "admin" us { nu with type := "admin" } hfresh hid]

/-- C6: take a user just created by signup (role `"user"`).  An admin
caller (who is not that user) promoting then demoting it by its id leaves
its stored role at `"user"` again; and promote is idempotent in effect:
a second promote returns the state of the first unchanged. -/
theorem promote_demote_fresh_user (hash : String → String) (fid : String) (st : AppState)
    (tok tok2 name email password : String) (a : SessionUser)
    (hv : signupValid (name, email, password) = true)
    (hnew : ∀ u ∈ st.users, u.email ≠ jsToLower email)
    (hfid : isValidObjectId fid = true)
    (hfresh : ∀ u ∈ st.users, u.id ≠ fid)
    (ha : getSession (signupSubmit hash fid st tok name email password).2.sessions tok2 = some a)
    (hadmin : a.type = "admin")
    (hne : a.email ≠ jsToLower email) :
    ((demote (promote (signupSubmit hash fid st tok name email password).2 tok2 fid).2 tok2
        fid).2.users.find? (fun u => u.id == fid)).map User.type = some "user" ∧
    (promote (promote (signupSubmit hash fid st tok name email password).2 tok2 fid).2 tok2
        fid).2 =
      (promote (signupSubmit hash fid st tok name email password).2 tok2 fid).2 := by
  have hf := find?_email_none st.users (jsToLower email) hnew
  have h1 := signupSubmit_success hash fid st tok name email password hv hf
  rw [h1] at ha ⊢
  exact promote_demote_on_fresh st.users
    (setSession st.sessions tok { id := none, name := name, email := jsToLower email,
                                  type := "user" })
    tok2 fid a
    { id := fid, name := name, email := jsToLower email, password := hash password,
      type := "user" }
    ha hadmin hfid hfresh rfl (Ne.symm hne)

/-- Witness for C6: Ada signs up while the administrator Boss holds a live
session; Boss promotes then demotes Ada's fresh record. -/
theorem promote_demote_fresh_user_witness :
    ((demote (promote (signupSubmit hashH "507f1f77bcf86cd799439011" baseState "tokA"
          "Ada" "Ada@x.com" "secret1").2 "tokB" "507f1f77bcf86cd799439011").2 "tokB"
        "507f1f77bcf86cd799439011").2.users.find?
        (fun u => u.id == "507f1f77bcf86cd799439011")).map User.type = some "user" ∧
    (promote (promote (signupSubmit hashH "507f1f77bcf86cd799439011" baseState "tokA"
          "Ada" "Ada@x.com" "secret1").2 "tokB" "507f1f77bcf86cd799439011").2 "tokB"
        "507f1f77bcf86cd799439011").2 =
      (promote (signupSubmit hashH "507f1f77bcf86cd799439011" baseState "tokA"
          "Ada" "Ada@x.com" "secret1").2 "tokB" "507f1f77bcf86cd799439011").2 :=
  promote_demote_fresh_user hashH "507f1f77bcf86cd799439011" baseState "tokA" "tokB"
    "Ada" "Ada@x.com" "secret1" adminSnap (by decide) (by decide) (by decide) (by decide)
    (by decide) (by decide) (by decide)

/-- C7: a demote whose target record carries the caller's own email is
refused with the explicit self-demotion message and mutates nothing: the
whole state, the caller's admin role included, is returned intact. -/
theorem demote_self_refused (st : AppState) (tok uid : String) (a : SessionUser) (t : User)
    (ha : getSession st.sessions tok = some a) (hadmin : a.type = "admin")
    (hu : isValidObjectId uid = true)
    (ht : st.users.find? (fun u => u.id == uid) = some t)
    (hself : t.email = a.email) :
    demote st tok uid = (Response.send selfDemoteMsg, st) := by
  unfold demote
  rw [ha]
  simp [hadmin, hu, ht, hself]

/-- Witness for C7: Boss tries to demote their own record. -/
theorem demote_self_refused_witness :
    demote baseState "tokB" "aaaaaaaaaaaaaaaaaaaaaaaa" =
      (Response.send selfDemoteMsg, baseState) :=
  demote_self_refused baseState "tokB" "aaaaaaaaaaaaaaaaaaaaaaaa" adminSnap adminUser
    (by decide) (by decide) (by decide) (by decide) (by decide)

/-- C8: a demote by an admin caller whose well-formed target id matches no
user record answers the 404 page and mutates nothing.  (In the source the
404 branch lacks a `return`; the fall-through dereferences `null` and
throws before the update, so the delivered response is the 404 and the
store stays untouched, as modelled.) -/
theorem demote_missing_not_found (st : AppState) (tok uid : String) (a : SessionUser)
    (ha : getSession st.sessions tok = some a) (hadmin : a.type = "admin")
    (hu : isValidObjectId uid = true)
    (hnone : st.users.find? (fun u => u.id == uid) = none) :
    demote st tok uid = (Response.statusRender 404 "404", st) := by
  unfold demote
  rw [ha]
  simp [hadmin, hu, hnone]

/-- Witness for C8: Boss demotes a well-formed id that belongs to nobody. -/
theorem demote_missing_not_found_witness :
    demote baseState "tokB" "507f1f77bcf86cd799439099" =
      (Response.statusRender 404 "404", baseState) :=
  demote_missing_not_found baseState "tokB" "507f1f77bcf86cd799439099" adminSnap
    (by decide) (by decide) (by decide) (by decide)

/-- C9: neither promote nor demote ever writes the session store: whatever
the caller, target and outcome, every already-issued session snapshot
(role included) is exactly as before, so a role change can only be seen
at the user's next login, which re-reads the user record. -/
theorem promote_demote_preserve_sessions (st : AppState) (tok uid : String) :
    (promote st tok uid).2.sessions = st.sessions ∧
    (demote st tok uid).2.sessions = st.sessions := by
  constructor
  · unfold promote
    split
    · rfl
    · split
      · rfl
      · split <;> rfl
  · unfold demote
    split
    · rfl
    · split
      · rfl
      · split
        · rfl
        · split
          · rfl
          · split <;> rfl

/-- C10: a promote by an admin caller on a well-formed id matching no user
record performs no existence check: it answers the very redirect of the
successful case and leaves every user record (indeed the whole state)
unchanged, instead of a not-found response. -/
theorem promote_missing_target (st : AppState) (tok uid : String) (a : SessionUser)
    (ha : getSession st.sessions tok = some a) (hadmin : a.type = "admin")
    (hu : isValidObjectId uid = true)
    (hmiss : ∀ u ∈ st.users, u.id ≠ uid) :
    promote st tok uid = (Response.redirect "/admin", st) := by
  rw [promote_admin_eq st tok uid a ha hadmin hu,
    setTypeFirst_not_found uid "admin" st.users hmiss]

/-- Witness for C10: Boss promotes a well-formed id that belongs to
nobody and gets the success redirect with nothing changed. -/
theorem promote_missing_target_witness :
    promote baseState "tokB" "507f1f77bcf86cd799439099" =
      (Response.redirect "/admin", baseState) :=
  promote_missing_target baseState "tokB" "507f1f77bcf86cd799439099" adminSnap
    (by decide) (by decide) (by decide) (by decide)
